import Mathlib

/-!
Shallow embedding of `src/main.py` (voice-agent conversation loop).

The four remote collaborators (microphone capture, speech-to-text,
chat completion, text-to-speech) are modelled as oracle functions in a
`TurnEnv`; each embedded source function returns its result together with
the list of observable `Event`s it produced (collaborator invocations,
file writes, conversation-history appends), so that ordering and
invocation-payload properties can be stated.

Python exceptions are modelled with `Except String`: a raised exception is
an `.error`, caught by the per-turn handler in `main`'s inner `try`.
-/

namespace VoiceAgent

/-- The role tag of a chat message, as in the `"role"` field of the
dictionaries built in `main.py`. -/
inductive Role
  | system
  | user
  | assistant
deriving DecidableEq

/-- A chat message dictionary: `{"role": ..., "content": ...}`. -/
structure Message where
  role : Role
  content : String
deriving DecidableEq

/-- Observable events of one program run: collaborator invocations (with
their payloads), file writes, and appends to `conversation_history`. -/
inductive Event
  | captureCall
  | fileWrite (path : String)
  | transcribeCall (path : String)
  | appendTurn (m : Message)
  | completeCall (messages : List Message)
  | synthCall (text : String)
deriving DecidableEq

/-- Oracles standing for the external collaborators during one turn of the
loop: microphone capture, `client.audio.transcriptions.create`,
`client.chat.completions.create`, and
`client.audio.speech.with_streaming_response.create`.  An `.error` value
models the corresponding call raising an exception. -/
structure TurnEnv where
  capture : Except String Unit
  transcribe : String → Except String String
  complete : List Message → Except String String
  synth : String → Except String Unit

/-- Python truthiness of the module-level `openai_api_key` value:
`os.getenv` returns `None` when unset, and the empty string is also falsy. -/
def truthyKey : Option String → Bool
  | none => false
  | some s => !s.isEmpty

/-- `initialize_openai_client` (main.py lines 16-20): raises `ValueError`
when `openai_api_key` is falsy, otherwise returns the client (modelled as
`Unit`). -/
def initialize_openai_client (openai_api_key : Option String) : Except String Unit :=
  if truthyKey openai_api_key then Except.ok ()
  else Except.error "OPENAI_API_KEY not found in environment variables"

/-- The directory of the script, `Path(__file__).parent`; an opaque-but-fixed
string constant for the whole process. -/
def script_dir : String := "."

/-- `get_speech_file_path` (main.py lines 22-24): the given filename resolved
in the script directory. -/
def get_speech_file_path (filename : String) : String :=
  script_dir ++ "/" ++ filename

/-- `record_audio` (main.py lines 26-76): opens the microphone and records
(modelled by the `capture` oracle; a device failure raises), then writes the
recorded data to `get_speech_file_path filename` and returns that path. -/
def record_audio (env : TurnEnv) (filename : String) : Except String String × List Event :=
  match env.capture with
  | Except.error e => (Except.error e, [Event.captureCall])
  | Except.ok _ =>
    (Except.ok (get_speech_file_path filename),
     [Event.captureCall, Event.fileWrite (get_speech_file_path filename)])

/-- `speech_to_text` (main.py lines 104-123): initializes the client (raising
if the key is missing), then submits the audio file to the transcription
service and returns the text. -/
def speech_to_text (openai_api_key : Option String) (env : TurnEnv)
    (audio_file_path : String) : Except String String × List Event :=
  match initialize_openai_client openai_api_key with
  | Except.error e => (Except.error e, [])
  | Except.ok _ =>
    match env.transcribe audio_file_path with
    | Except.error e => (Except.error e, [Event.transcribeCall audio_file_path])
    | Except.ok t => (Except.ok t, [Event.transcribeCall audio_file_path])

/-- `chat_completion` (main.py lines 125-143): initializes the client, then
submits the `messages` list to the completion service and returns the
assistant content. -/
def chat_completion (openai_api_key : Option String) (env : TurnEnv)
    (messages : List Message) : Except String String × List Event :=
  match initialize_openai_client openai_api_key with
  | Except.error e => (Except.error e, [])
  | Except.ok _ =>
    match env.complete messages with
    | Except.error e => (Except.error e, [Event.completeCall messages])
    | Except.ok content => (Except.ok content, [Event.completeCall messages])

/-- `text_to_speech` (main.py lines 78-102): initializes the client, resolves
`get_speech_file_path output_file`, submits the text to the synthesis
service, streams the result to that file, and returns the file path. -/
def text_to_speech (openai_api_key : Option String) (env : TurnEnv)
    (text : String) (output_file : String) : Except String String × List Event :=
  match initialize_openai_client openai_api_key with
  | Except.error e => (Except.error e, [])
  | Except.ok _ =>
    match env.synth text with
    | Except.error e => (Except.error e, [Event.synthCall text])
    | Except.ok _ =>
      (Except.ok (get_speech_file_path output_file),
       [Event.synthCall text, Event.fileWrite (get_speech_file_path output_file)])

/-- `ask_and_speak` (main.py lines 145-173): builds a fresh two-message list
`[system, user]` from its own arguments (NOT from `conversation_history`),
gets the completion, converts it to speech with the default output file
`"speech.mp3"`, and returns `(response, speech_file)`. -/
def ask_and_speak (openai_api_key : Option String) (env : TurnEnv)
    (question : String) (system_prompt : String) :
    Except String (String × String) × List Event :=
  match chat_completion openai_api_key env
      [⟨Role.system, system_prompt⟩, ⟨Role.user, question⟩] with
  | (Except.error e, ev) => (Except.error e, ev)
  | (Except.ok response, ev1) =>
    match text_to_speech openai_api_key env response "speech.mp3" with
    | (Except.error e, ev2) => (Except.error e, ev1 ++ ev2)
    | (Except.ok speech_file, ev2) =>
      (Except.ok (response, speech_file), ev1 ++ ev2)

/-- Result of one iteration of `main`'s inner `try` block: the conversation
history after the turn, the events of the turn, and `some (response, path)`
on success or `none` when an exception was caught by the handler at
main.py line 222. -/
structure TurnOut where
  hist : List Message
  events : List Event
  result : Option (String × String)
deriving DecidableEq

/-- The body of `main`'s inner `try` block (main.py lines 195-224): record,
transcribe, append the user turn to `conversation_history`, run
`ask_and_speak`, then append the assistant turn.  Any exception leaves the
history as it was at the point of the raise (the user turn, once appended,
is retained) and is caught (`result = none`). -/
def runTurn (openai_api_key : Option String) (env : TurnEnv)
    (system_prompt : String) (conversation_history : List Message) : TurnOut :=
  match record_audio env "input.wav" with
  | (Except.error _, ev) => ⟨conversation_history, ev, none⟩
  | (Except.ok audio_path, ev0) =>
    match speech_to_text openai_api_key env audio_path with
    | (Except.error _, ev1) => ⟨conversation_history, ev0 ++ ev1, none⟩
    | (Except.ok question, ev1) =>
      match ask_and_speak openai_api_key env question system_prompt with
      | (Except.error _, ev2) =>
        ⟨conversation_history ++ [⟨Role.user, question⟩],
         ev0 ++ ev1 ++ [Event.appendTurn ⟨Role.user, question⟩] ++ ev2, none⟩
      | (Except.ok (response, speech_file), ev2) =>
        ⟨(conversation_history ++ [⟨Role.user, question⟩]) ++ [⟨Role.assistant, response⟩],
         ev0 ++ ev1 ++ [Event.appendTurn ⟨Role.user, question⟩] ++ ev2
           ++ [Event.appendTurn ⟨Role.assistant, response⟩],
         some (response, speech_file)⟩

/-- Final state of the loop: conversation history and the full event trace. -/
structure LoopOut where
  hist : List Message
  events : List Event
deriving DecidableEq

/-- Python's `s.strip().upper()` applied to a console line: whitespace is
removed from both ends, then letters are uppercased. -/
def strip_upper (s : String) : String :=
  ⟨(((s.data.dropWhile Char.isWhitespace).reverse.dropWhile
      Char.isWhitespace).reverse).map Char.toUpper⟩

/-- The `while True` loop of `main` (main.py lines 186-224), driven by a
script of console inputs, each paired with the collaborator oracles for the
turn it may start.  `input().strip().upper()`: `"Q"` breaks, anything other
than `"R"` continues, `"R"` runs one turn; exceptions in the turn are caught
and the loop continues. -/
def mainLoop (openai_api_key : Option String) (system_prompt : String) :
    List (String × TurnEnv) → List Message → LoopOut
  | [], conversation_history => ⟨conversation_history, []⟩
  | entry :: rest, conversation_history =>
    if strip_upper entry.1 = "Q" then ⟨conversation_history, []⟩
    else if strip_upper entry.1 = "R" then
      ⟨(mainLoop openai_api_key system_prompt rest
          (runTurn openai_api_key entry.2 system_prompt conversation_history).hist).hist,
       (runTurn openai_api_key entry.2 system_prompt conversation_history).events
         ++ (mainLoop openai_api_key system_prompt rest
              (runTurn openai_api_key entry.2 system_prompt conversation_history).hist).events⟩
    else mainLoop openai_api_key system_prompt rest conversation_history

/-- The system prompt fixed at session creation (main.py line 183). -/
def main_system_prompt : String :=
  "You are a helpful and friendly assistant. Keep your responses concise and natural."

/-- `main` (main.py lines 175-229): starts with an empty
`conversation_history` and the fixed system prompt, then runs the loop. -/
def main (openai_api_key : Option String) (script : List (String × TurnEnv)) : LoopOut :=
  mainLoop openai_api_key main_system_prompt script []

/-- The payloads of all Responder (chat-completion) invocations in a trace,
in order. -/
def completePayloads (evs : List Event) : List (List Message) :=
  evs.filterMap fun e =>
    match e with
    | Event.completeCall m => some m
    | _ => none

/-- Whether an event is the append of an assistant turn to the history. -/
def isAssistantAppend : Event → Bool
  | Event.appendTurn ⟨Role.assistant, _⟩ => true
  | _ => false

/-- A credential value that passes the truthiness check. -/
def someKey : Option String := some "sk-test"

/-- Oracles for a fully successful turn transcribed as "Hi". -/
def envHi : TurnEnv :=
  ⟨Except.ok (), fun _ => Except.ok "Hi", fun _ => Except.ok "Hello.",
   fun _ => Except.ok ()⟩

/-- Oracles for a fully successful turn transcribed as "How are you?". -/
def envHow : TurnEnv :=
  ⟨Except.ok (), fun _ => Except.ok "How are you?", fun _ => Except.ok "I am fine.",
   fun _ => Except.ok ()⟩

/-- Oracles for a turn whose synthesis call fails after a successful
completion. -/
def envSynthFail : TurnEnv :=
  ⟨Except.ok (), fun _ => Except.ok "Hi", fun _ => Except.ok "Hello.",
   fun _ => Except.error "SynthesisError"⟩

/-- Oracles for a turn whose completion call fails. -/
def envCompFail : TurnEnv :=
  ⟨Except.ok (), fun _ => Except.ok "What time is it?",
   fun _ => Except.error "CompletionError", fun _ => Except.ok ()⟩

/-- Oracles for a turn whose transcription comes back empty. -/
def envEmpty : TurnEnv :=
  ⟨Except.ok (), fun _ => Except.ok "", fun _ => Except.ok "Hello.",
   fun _ => Except.ok ()⟩

/-- A two-successful-turn session script ended by a quit input. -/
def scriptTwo : List (String × TurnEnv) := [("R", envHi), ("R", envHow), ("Q", envHi)]



theorem runTurn_hist_shape (key : Option String) (env : TurnEnv) (sp : String)
    (hist : List Message) :
    (runTurn key env sp hist).hist = hist ∨
    (∃ q, (runTurn key env sp hist).hist = hist ++ [⟨Role.user, q⟩]) ∨
    (∃ q r, (runTurn key env sp hist).hist
      = (hist ++ [⟨Role.user, q⟩]) ++ [⟨Role.assistant, r⟩]) := by
  unfold runTurn
  split
  · exact Or.inl rfl
  · split
    · exact Or.inl rfl
    · split
      · exact Or.inr (Or.inl ⟨_, rfl⟩)
      · exact Or.inr (Or.inr ⟨_, _, rfl⟩)

theorem runTurn_hist_extends (key : Option String) (env : TurnEnv) (sp : String)
    (hist : List Message) :
    ∃ t, (runTurn key env sp hist).hist = hist ++ t := by
  rcases runTurn_hist_shape key env sp hist with h | ⟨q, h⟩ | ⟨q, r, h⟩
  · exact ⟨[], by simp [h]⟩
  · exact ⟨_, h⟩
  · exact ⟨[⟨Role.user, q⟩, ⟨Role.assistant, r⟩], by simp [h]⟩

theorem mainLoop_hist_extends (key : Option String) (sp : String) :
    ∀ (script : List (String × TurnEnv)) (hist : List Message),
    ∃ u, (mainLoop key sp script hist).hist = hist ++ u
  | [], hist => ⟨[], by simp [mainLoop]⟩
  | (raw, env) :: rest, hist => by
    by_cases hq : strip_upper raw = "Q"
    · exact ⟨[], by simp [mainLoop, hq]⟩
    · by_cases hr : strip_upper raw = "R"
      · obtain ⟨t, hT⟩ := runTurn_hist_extends key env sp hist
        obtain ⟨u, hU⟩ := mainLoop_hist_extends key sp rest (runTurn key env sp hist).hist
        refine ⟨t ++ u, ?_⟩
        have hm : (mainLoop key sp ((raw, env) :: rest) hist).hist
            = (mainLoop key sp rest (runTurn key env sp hist).hist).hist := by
          simp [mainLoop, hq, hr]
        rw [hm, hU, hT, List.append_assoc]
      · obtain ⟨u, hU⟩ := mainLoop_hist_extends key sp rest hist
        refine ⟨u, ?_⟩
        simp [mainLoop, hq, hr, hU]



theorem runTurn_events_complete (key : Option String) (env : TurnEnv) (sp : String)
    (hist : List Message) (msgs : List Message)
    (h : Event.completeCall msgs ∈ (runTurn key env sp hist).events) :
    ∃ q, msgs = [⟨Role.system, sp⟩, ⟨Role.user, q⟩] := by
  cases hc : env.capture with
  | error e => simp [runTurn, record_audio, hc] at h
  | ok u =>
    cases hk : truthyKey key with
    | false =>
      simp [runTurn, record_audio, speech_to_text, initialize_openai_client, hc, hk] at h
    | true =>
      cases ht : env.transcribe (get_speech_file_path "input.wav") with
      | error e =>
        simp [runTurn, record_audio, speech_to_text, initialize_openai_client, hc, hk, ht] at h
      | ok q =>
        cases hcmp : env.complete [⟨Role.system, sp⟩, ⟨Role.user, q⟩] with
        | error e =>
          simp [runTurn, record_audio, speech_to_text, ask_and_speak, chat_completion,
                initialize_openai_client, hc, hk, ht, hcmp] at h
          exact ⟨q, h⟩
        | ok r =>
          cases hs : env.synth r with
          | error e =>
            simp [runTurn, record_audio, speech_to_text, ask_and_speak, chat_completion,
                  text_to_speech, initialize_openai_client, hc, hk, ht, hcmp, hs] at h
            exact ⟨q, h⟩
          | ok u2 =>
            simp [runTurn, record_audio, speech_to_text, ask_and_speak, chat_completion,
                  text_to_speech, initialize_openai_client, hc, hk, ht, hcmp, hs] at h
            exact ⟨q, h⟩

theorem mainLoop_events_complete (key : Option String) (sp : String) :
    ∀ (script : List (String × TurnEnv)) (hist : List Message) (msgs : List Message),
    Event.completeCall msgs ∈ (mainLoop key sp script hist).events →
    ∃ q, msgs = [⟨Role.system, sp⟩, ⟨Role.user, q⟩]
  | [], hist, msgs, h => by simp [mainLoop] at h
  | (raw, env) :: rest, hist, msgs, h => by
    by_cases hq : strip_upper raw = "Q"
    · simp [mainLoop, hq] at h
    · by_cases hr : strip_upper raw = "R"
      · rw [show mainLoop key sp ((raw, env) :: rest) hist
            = ⟨(mainLoop key sp rest (runTurn key env sp hist).hist).hist,
               (runTurn key env sp hist).events
                 ++ (mainLoop key sp rest (runTurn key env sp hist).hist).events⟩
            from by simp [mainLoop, hq, hr]] at h
        rcases List.mem_append.mp h with h1 | h2
        · exact runTurn_events_complete key env sp hist msgs h1
        · exact mainLoop_events_complete key sp rest (runTurn key env sp hist).hist msgs h2
      · rw [show mainLoop key sp ((raw, env) :: rest) hist
            = mainLoop key sp rest hist from by simp [mainLoop, hq, hr]] at h
        exact mainLoop_events_complete key sp rest hist msgs h

theorem runTurn_roles (key : Option String) (env : TurnEnv) (sp : String)
    (hist : List Message) :
    ∀ m ∈ (runTurn key env sp hist).hist,
      m ∈ hist ∨ m.role = Role.user ∨ m.role = Role.assistant := by
  rcases runTurn_hist_shape key env sp hist with h | ⟨q, h⟩ | ⟨q, r, h⟩
  · rw [h]; intro m hm; exact Or.inl hm
  · rw [h]; intro m hm
    rcases List.mem_append.mp hm with hm | hm
    · exact Or.inl hm
    · rw [List.mem_singleton.mp hm]; exact Or.inr (Or.inl rfl)
  · rw [h]; intro m hm
    rcases List.mem_append.mp hm with hm | hm
    · rcases List.mem_append.mp hm with hm | hm
      · exact Or.inl hm
      · rw [List.mem_singleton.mp hm]; exact Or.inr (Or.inl rfl)
    · rw [List.mem_singleton.mp hm]; exact Or.inr (Or.inr rfl)

theorem mainLoop_roles (key : Option String) (sp : String) :
    ∀ (script : List (String × TurnEnv)) (hist : List Message),
    ∀ m ∈ (mainLoop key sp script hist).hist,
      m ∈ hist ∨ m.role = Role.user ∨ m.role = Role.assistant
  | [], hist, m, hm => by simp [mainLoop] at hm; exact Or.inl hm
  | (raw, env) :: rest, hist, m, hm => by
    by_cases hq : strip_upper raw = "Q"
    · simp [mainLoop, hq] at hm; exact Or.inl hm
    · by_cases hr : strip_upper raw = "R"
      · rw [show (mainLoop key sp ((raw, env) :: rest) hist).hist
            = (mainLoop key sp rest (runTurn key env sp hist).hist).hist
            from by simp [mainLoop, hq, hr]] at hm
        rcases mainLoop_roles key sp rest (runTurn key env sp hist).hist m hm with h1 | h1
        · exact runTurn_roles key env sp hist m h1
        · exact Or.inr h1
      · rw [show (mainLoop key sp ((raw, env) :: rest) hist).hist
            = (mainLoop key sp rest hist).hist from by simp [mainLoop, hq, hr]] at hm
        exact mainLoop_roles key sp rest hist m hm



theorem speech_ne_input : get_speech_file_path "speech.mp3" ≠ get_speech_file_path "input.wav" := by
  decide

theorem runTurn_success (key : Option String) (env : TurnEnv) (sp : String)
    (hist : List Message) (q r : String)
    (hk : truthyKey key = true)
    (hc : env.capture = Except.ok ())
    (ht : env.transcribe (get_speech_file_path "input.wav") = Except.ok q)
    (hcmp : env.complete [⟨Role.system, sp⟩, ⟨Role.user, q⟩] = Except.ok r)
    (hs : env.synth r = Except.ok ()) :
    runTurn key env sp hist =
      ⟨(hist ++ [⟨Role.user, q⟩]) ++ [⟨Role.assistant, r⟩],
       [Event.captureCall, Event.fileWrite (get_speech_file_path "input.wav"),
        Event.transcribeCall (get_speech_file_path "input.wav"),
        Event.appendTurn ⟨Role.user, q⟩,
        Event.completeCall [⟨Role.system, sp⟩, ⟨Role.user, q⟩],
        Event.synthCall r, Event.fileWrite (get_speech_file_path "speech.mp3"),
        Event.appendTurn ⟨Role.assistant, r⟩],
       some (r, get_speech_file_path "speech.mp3")⟩ := by
  simp [runTurn, record_audio, speech_to_text, ask_and_speak, chat_completion,
        text_to_speech, initialize_openai_client, hk, hc, ht, hcmp, hs]

theorem runTurn_comp_fail (key : Option String) (env : TurnEnv) (sp : String)
    (hist : List Message) (q e : String)
    (hk : truthyKey key = true)
    (hc : env.capture = Except.ok ())
    (ht : env.transcribe (get_speech_file_path "input.wav") = Except.ok q)
    (hcmp : env.complete [⟨Role.system, sp⟩, ⟨Role.user, q⟩] = Except.error e) :
    runTurn key env sp hist =
      ⟨hist ++ [⟨Role.user, q⟩],
       [Event.captureCall, Event.fileWrite (get_speech_file_path "input.wav"),
        Event.transcribeCall (get_speech_file_path "input.wav"),
        Event.appendTurn ⟨Role.user, q⟩,
        Event.completeCall [⟨Role.system, sp⟩, ⟨Role.user, q⟩]],
       none⟩ := by
  simp [runTurn, record_audio, speech_to_text, ask_and_speak, chat_completion,
        initialize_openai_client, hk, hc, ht, hcmp]

theorem runTurn_synth_fail (key : Option String) (env : TurnEnv) (sp : String)
    (hist : List Message) (q r e : String)
    (hk : truthyKey key = true)
    (hc : env.capture = Except.ok ())
    (ht : env.transcribe (get_speech_file_path "input.wav") = Except.ok q)
    (hcmp : env.complete [⟨Role.system, sp⟩, ⟨Role.user, q⟩] = Except.ok r)
    (hs : env.synth r = Except.error e) :
    runTurn key env sp hist =
      ⟨hist ++ [⟨Role.user, q⟩],
       [Event.captureCall, Event.fileWrite (get_speech_file_path "input.wav"),
        Event.transcribeCall (get_speech_file_path "input.wav"),
        Event.appendTurn ⟨Role.user, q⟩,
        Event.completeCall [⟨Role.system, sp⟩, ⟨Role.user, q⟩],
        Event.synthCall r],
       none⟩ := by
  simp [runTurn, record_audio, speech_to_text, ask_and_speak, chat_completion,
        text_to_speech, initialize_openai_client, hk, hc, ht, hcmp, hs]

theorem runTurn_no_key (key : Option String) (env : TurnEnv) (sp : String)
    (hist : List Message)
    (hk : truthyKey key = false)
    (hc : env.capture = Except.ok ()) :
    runTurn key env sp hist =
      ⟨hist, [Event.captureCall, Event.fileWrite (get_speech_file_path "input.wav")], none⟩ := by
  simp [runTurn, record_audio, speech_to_text, initialize_openai_client, hk, hc]

theorem mainLoop_cons_R (key : Option String) (sp raw : String) (env : TurnEnv)
    (rest : List (String × TurnEnv)) (hist : List Message)
    (hr : strip_upper raw = "R") :
    mainLoop key sp ((raw, env) :: rest) hist =
      ⟨(mainLoop key sp rest (runTurn key env sp hist).hist).hist,
       (runTurn key env sp hist).events
         ++ (mainLoop key sp rest (runTurn key env sp hist).hist).events⟩ := by
  have hq : strip_upper raw ≠ "Q" := by rw [hr]; decide
  simp [mainLoop, hq, hr]



/-- Claim C1: the spec says every Responder call carries the full accumulated
Transcript (5 messages on the second successful turn).  The code maintains
`conversation_history` but never passes it to `ask_and_speak`, which builds a
fresh 2-message list; over two successful turns every completion payload has
exactly 2 messages. -/
theorem C1_responder_context_eval :
    completePayloads (main someKey scriptTwo).events =
      [[⟨Role.system, main_system_prompt⟩, ⟨Role.user, "Hi"⟩],
       [⟨Role.system, main_system_prompt⟩, ⟨Role.user, "How are you?"⟩]] ∧
    (completePayloads (main someKey scriptTwo).events).map List.length = [2, 2] := by
  decide

/-- Claim C2 counterexample: after one successful turn the first element of
`conversation_history` is the user turn, not a system turn. -/
theorem C2_counterexample :
    (main someKey [("R", envHi)]).hist.head?.map Message.role = some Role.user ∧
    Role.user ≠ Role.system := by
  decide

/-- Claim C2 (amended): the conversation history never contains a system
turn; instead each Responder call receives a fresh message list headed by a
system turn whose content is exactly the prompt fixed at session creation,
identical across all calls. -/
theorem C2_system_prompt_invariant (key : Option String)
    (script : List (String × TurnEnv)) (msgs : List Message)
    (h : Event.completeCall msgs ∈ (main key script).events) :
    (∀ m ∈ (main key script).hist, m.role ≠ Role.system) ∧
    msgs.head? = some ⟨Role.system, main_system_prompt⟩ ∧
    (∃ q, msgs = [⟨Role.system, main_system_prompt⟩, ⟨Role.user, q⟩]) := by
  constructor
  · intro m hm
    rcases mainLoop_roles key main_system_prompt script [] m hm with h1 | h1 | h1
    · simp at h1
    · rw [h1]; decide
    · rw [h1]; decide
  · obtain ⟨q, hq⟩ := mainLoop_events_complete key main_system_prompt script [] msgs h
    exact ⟨by rw [hq]; rfl, ⟨q, hq⟩⟩

/-- Claim C2 witness: instance of the amended theorem at a concrete run. -/
theorem C2_witness :
    (∀ m ∈ (main someKey scriptTwo).hist, m.role ≠ Role.system) ∧
    ([⟨Role.system, main_system_prompt⟩, ⟨Role.user, "Hi"⟩] : List Message).head?
      = some ⟨Role.system, main_system_prompt⟩ ∧
    (∃ q, ([⟨Role.system, main_system_prompt⟩, ⟨Role.user, "Hi"⟩] : List Message)
      = [⟨Role.system, main_system_prompt⟩, ⟨Role.user, q⟩]) :=
  C2_system_prompt_invariant someKey scriptTwo
    [⟨Role.system, main_system_prompt⟩, ⟨Role.user, "Hi"⟩] (by decide)

/-- Claim C3 counterexample: when synthesis fails after a successful
completion the history grows by 1, not 2 — the assistant turn is not
recorded. -/
theorem C3_counterexample :
    (runTurn someKey envSynthFail main_system_prompt []).hist = [⟨Role.user, "Hi"⟩] ∧
    (runTurn someKey envSynthFail main_system_prompt []).hist.length ≠ 2 ∧
    (runTurn someKey envSynthFail main_system_prompt []).result = none := by
  decide

/-- Claim C3 (amended): when the Synthesizer fails after the Responder
succeeded, the history grows by exactly 1 (only the user turn; the assistant
turn is appended only after synthesis succeeds), the Synthesizer was invoked,
no artifact is produced, and the error is reported (caught by the per-turn
handler). -/
theorem C3_synth_failure_rollback (key : Option String) (env : TurnEnv)
    (sp : String) (hist : List Message) (q r e : String)
    (hk : truthyKey key = true)
    (hc : env.capture = Except.ok ())
    (ht : env.transcribe (get_speech_file_path "input.wav") = Except.ok q)
    (hcmp : env.complete [⟨Role.system, sp⟩, ⟨Role.user, q⟩] = Except.ok r)
    (hs : env.synth r = Except.error e) :
    (runTurn key env sp hist).hist = hist ++ [⟨Role.user, q⟩] ∧
    (runTurn key env sp hist).result = none ∧
    Event.synthCall r ∈ (runTurn key env sp hist).events ∧
    Event.fileWrite (get_speech_file_path "speech.mp3") ∉ (runTurn key env sp hist).events ∧
    (∀ s, Event.appendTurn ⟨Role.assistant, s⟩ ∉ (runTurn key env sp hist).events) := by
  rw [runTurn_synth_fail key env sp hist q r e hk hc ht hcmp hs]
  refine ⟨rfl, rfl, by simp, by simp [speech_ne_input], ?_⟩
  intro s
  simp

/-- Claim C3 witness: instance of the amended theorem at a concrete turn. -/
theorem C3_witness :
    (runTurn someKey envSynthFail main_system_prompt []).hist
      = [] ++ [⟨Role.user, "Hi"⟩] ∧
    (runTurn someKey envSynthFail main_system_prompt []).result = none ∧
    Event.synthCall "Hello." ∈ (runTurn someKey envSynthFail main_system_prompt []).events ∧
    Event.fileWrite (get_speech_file_path "speech.mp3")
      ∉ (runTurn someKey envSynthFail main_system_prompt []).events ∧
    (∀ s, Event.appendTurn ⟨Role.assistant, s⟩
      ∉ (runTurn someKey envSynthFail main_system_prompt []).events) :=
  C3_synth_failure_rollback someKey envSynthFail main_system_prompt [] "Hi" "Hello."
    "SynthesisError" (by decide) rfl rfl rfl rfl



/-- Claim C4 counterexample: an empty transcription is not a no-op — the
empty user turn is appended and the Responder and Synthesizer are invoked. -/
theorem C4_counterexample :
    (runTurn someKey envEmpty main_system_prompt []).hist
      = [⟨Role.user, ""⟩, ⟨Role.assistant, "Hello."⟩] ∧
    Event.completeCall [⟨Role.system, main_system_prompt⟩, ⟨Role.user, ""⟩]
      ∈ (runTurn someKey envEmpty main_system_prompt []).events ∧
    Event.synthCall "Hello." ∈ (runTurn someKey envEmpty main_system_prompt []).events := by
  decide

/-- Claim C4 (amended): an empty (or whitespace-only) transcription is not
special-cased — the turn proceeds exactly like any other: the empty user
turn is appended, the Responder and Synthesizer are invoked with it, and on
success an artifact is produced. -/
theorem C4_empty_transcription_proceeds (key : Option String) (env : TurnEnv)
    (sp : String) (hist : List Message) (r : String)
    (hk : truthyKey key = true)
    (hc : env.capture = Except.ok ())
    (ht : env.transcribe (get_speech_file_path "input.wav") = Except.ok "")
    (hcmp : env.complete [⟨Role.system, sp⟩, ⟨Role.user, ""⟩] = Except.ok r)
    (hs : env.synth r = Except.ok ()) :
    (runTurn key env sp hist).hist = (hist ++ [⟨Role.user, ""⟩]) ++ [⟨Role.assistant, r⟩] ∧
    Event.completeCall [⟨Role.system, sp⟩, ⟨Role.user, ""⟩]
      ∈ (runTurn key env sp hist).events ∧
    Event.synthCall r ∈ (runTurn key env sp hist).events ∧
    (runTurn key env sp hist).result = some (r, get_speech_file_path "speech.mp3") := by
  rw [runTurn_success key env sp hist "" r hk hc ht hcmp hs]
  exact ⟨rfl, by simp, by simp, rfl⟩

/-- Claim C4 witness: instance of the amended theorem at a concrete turn. -/
theorem C4_witness :
    (runTurn someKey envEmpty main_system_prompt []).hist
      = ([] ++ [⟨Role.user, ""⟩]) ++ [⟨Role.assistant, "Hello."⟩] ∧
    Event.completeCall [⟨Role.system, main_system_prompt⟩, ⟨Role.user, ""⟩]
      ∈ (runTurn someKey envEmpty main_system_prompt []).events ∧
    Event.synthCall "Hello." ∈ (runTurn someKey envEmpty main_system_prompt []).events ∧
    (runTurn someKey envEmpty main_system_prompt []).result
      = some ("Hello.", get_speech_file_path "speech.mp3") :=
  C4_empty_transcription_proceeds someKey envEmpty main_system_prompt [] "Hello."
    (by decide) rfl rfl rfl rfl

/-- Claim C5 counterexample: in a successful turn the Synthesizer is invoked
at a point (within the first seven events) where no assistant turn has yet
been appended to the history. -/
theorem C5_counterexample :
    (((runTurn someKey envHi main_system_prompt []).events.take 7).all
        fun e => !(isAssistantAppend e)) = true ∧
    Event.synthCall "Hello." ∈ (runTurn someKey envHi main_system_prompt []).events.take 7 := by
  decide

/-- Claim C5 (amended): within a successful turn the invocation order is
Transcriber, then Responder (after the user turn is appended), then
Synthesizer — but the Synthesizer is invoked BEFORE the assistant turn is
appended: the assistant turn is appended only after synthesis succeeds, as
the full event trace shows. -/
theorem C5_invocation_order (key : Option String) (env : TurnEnv) (sp : String)
    (hist : List Message) (q r : String)
    (hk : truthyKey key = true)
    (hc : env.capture = Except.ok ())
    (ht : env.transcribe (get_speech_file_path "input.wav") = Except.ok q)
    (hcmp : env.complete [⟨Role.system, sp⟩, ⟨Role.user, q⟩] = Except.ok r)
    (hs : env.synth r = Except.ok ()) :
    (runTurn key env sp hist).events =
      [Event.captureCall, Event.fileWrite (get_speech_file_path "input.wav"),
       Event.transcribeCall (get_speech_file_path "input.wav"),
       Event.appendTurn ⟨Role.user, q⟩,
       Event.completeCall [⟨Role.system, sp⟩, ⟨Role.user, q⟩],
       Event.synthCall r, Event.fileWrite (get_speech_file_path "speech.mp3"),
       Event.appendTurn ⟨Role.assistant, r⟩] := by
  rw [runTurn_success key env sp hist q r hk hc ht hcmp hs]

/-- Claim C5 witness: instance of the amended theorem at a concrete turn. -/
theorem C5_witness :
    (runTurn someKey envHi main_system_prompt []).events =
      [Event.captureCall, Event.fileWrite (get_speech_file_path "input.wav"),
       Event.transcribeCall (get_speech_file_path "input.wav"),
       Event.appendTurn ⟨Role.user, "Hi"⟩,
       Event.completeCall [⟨Role.system, main_system_prompt⟩, ⟨Role.user, "Hi"⟩],
       Event.synthCall "Hello.", Event.fileWrite (get_speech_file_path "speech.mp3"),
       Event.appendTurn ⟨Role.assistant, "Hello."⟩] :=
  C5_invocation_order someKey envHi main_system_prompt [] "Hi" "Hello."
    (by decide) rfl rfl rfl rfl

/-- Claim C6 counterexample: with the credential missing the session still
starts and keeps looping — two recording turns both run (two capture
invocations), each turn's failure being swallowed by the per-turn handler,
and the run ends gracefully with an unchanged empty history. -/
theorem C6_counterexample :
    (main none [("R", envHi), ("R", envHow)]).events
      = [Event.captureCall, Event.fileWrite (get_speech_file_path "input.wav"),
         Event.captureCall, Event.fileWrite (get_speech_file_path "input.wav")] ∧
    (main none [("R", envHi), ("R", envHow)]).hist = [] := by
  decide

/-- Claim C6 (amended): a missing (falsy) credential is NOT detected at
session creation — the loop starts, recording proceeds and writes the
capture file, the error is raised at the first remote call inside the turn
(before any transcription or completion request), it is caught by the
per-turn handler, and the loop continues with the next scripted input. -/
theorem C6_missing_key_swallowed (key : Option String) (env : TurnEnv)
    (sp raw : String) (rest : List (String × TurnEnv)) (hist : List Message)
    (hk : truthyKey key = false)
    (hc : env.capture = Except.ok ())
    (hr : strip_upper raw = "R") :
    runTurn key env sp hist
      = ⟨hist, [Event.captureCall, Event.fileWrite (get_speech_file_path "input.wav")], none⟩ ∧
    (∀ msgs, Event.completeCall msgs ∉ (runTurn key env sp hist).events) ∧
    (∀ p, Event.transcribeCall p ∉ (runTurn key env sp hist).events) ∧
    mainLoop key sp ((raw, env) :: rest) hist =
      ⟨(mainLoop key sp rest hist).hist,
       [Event.captureCall, Event.fileWrite (get_speech_file_path "input.wav")]
         ++ (mainLoop key sp rest hist).events⟩ := by
  have h1 := runTurn_no_key key env sp hist hk hc
  refine ⟨h1, ?_, ?_, ?_⟩
  · intro msgs; rw [h1]; simp
  · intro p; rw [h1]; simp
  · rw [mainLoop_cons_R key sp raw env rest hist hr, h1]

/-- Claim C6 witness: instance of the amended theorem at a concrete run. -/
theorem C6_witness :
    runTurn none envHi main_system_prompt []
      = ⟨[], [Event.captureCall, Event.fileWrite (get_speech_file_path "input.wav")], none⟩ ∧
    (∀ msgs, Event.completeCall msgs ∉ (runTurn none envHi main_system_prompt []).events) ∧
    (∀ p, Event.transcribeCall p ∉ (runTurn none envHi main_system_prompt []).events) ∧
    mainLoop none main_system_prompt [("R", envHi)] [] =
      ⟨(mainLoop none main_system_prompt [] []).hist,
       [Event.captureCall, Event.fileWrite (get_speech_file_path "input.wav")]
         ++ (mainLoop none main_system_prompt [] []).events⟩ :=
  C6_missing_key_swallowed none envHi main_system_prompt "R" [] [] rfl rfl (by decide)



/-- Claim C7: when the Responder (completion) call fails, the history grows
by exactly 1 — the user turn is retained, no assistant turn is appended,
the Synthesizer is never invoked, no artifact is produced — and the loop
catches the error and continues with the next scripted input. -/
theorem C7_responder_failure (key : Option String) (env : TurnEnv)
    (sp raw : String) (rest : List (String × TurnEnv)) (hist : List Message)
    (q e : String)
    (hk : truthyKey key = true)
    (hc : env.capture = Except.ok ())
    (ht : env.transcribe (get_speech_file_path "input.wav") = Except.ok q)
    (hcmp : env.complete [⟨Role.system, sp⟩, ⟨Role.user, q⟩] = Except.error e)
    (hr : strip_upper raw = "R") :
    (runTurn key env sp hist).hist = hist ++ [⟨Role.user, q⟩] ∧
    (runTurn key env sp hist).result = none ∧
    (∀ s, Event.synthCall s ∉ (runTurn key env sp hist).events) ∧
    (∀ s, Event.appendTurn ⟨Role.assistant, s⟩ ∉ (runTurn key env sp hist).events) ∧
    Event.fileWrite (get_speech_file_path "speech.mp3") ∉ (runTurn key env sp hist).events ∧
    mainLoop key sp ((raw, env) :: rest) hist =
      ⟨(mainLoop key sp rest (hist ++ [⟨Role.user, q⟩])).hist,
       (runTurn key env sp hist).events
         ++ (mainLoop key sp rest (hist ++ [⟨Role.user, q⟩])).events⟩ := by
  have h1 := runTurn_comp_fail key env sp hist q e hk hc ht hcmp
  refine ⟨by rw [h1], by rw [h1], ?_, ?_, ?_, ?_⟩
  · intro s; rw [h1]; simp
  · intro s; rw [h1]; simp
  · rw [h1]; simp [speech_ne_input]
  · rw [mainLoop_cons_R key sp raw env rest hist hr, h1]

/-- Claim C7 witness: instance of the theorem at a concrete turn whose
completion call fails. -/
theorem C7_witness :
    (runTurn someKey envCompFail main_system_prompt []).hist
      = [] ++ [⟨Role.user, "What time is it?"⟩] ∧
    (runTurn someKey envCompFail main_system_prompt []).result = none ∧
    (∀ s, Event.synthCall s ∉ (runTurn someKey envCompFail main_system_prompt []).events) ∧
    (∀ s, Event.appendTurn ⟨Role.assistant, s⟩
      ∉ (runTurn someKey envCompFail main_system_prompt []).events) ∧
    Event.fileWrite (get_speech_file_path "speech.mp3")
      ∉ (runTurn someKey envCompFail main_system_prompt []).events ∧
    mainLoop someKey main_system_prompt [("R", envCompFail)] [] =
      ⟨(mainLoop someKey main_system_prompt [] ([] ++ [⟨Role.user, "What time is it?"⟩])).hist,
       (runTurn someKey envCompFail main_system_prompt []).events
         ++ (mainLoop someKey main_system_prompt []
              ([] ++ [⟨Role.user, "What time is it?"⟩])).events⟩ :=
  C7_responder_failure someKey envCompFail main_system_prompt "R" [] []
    "What time is it?" "CompletionError" (by decide) rfl rfl rfl (by decide)

/-- Claim C8: a successful turn grows the history by exactly 2 entries — the
user turn then the assistant turn, appended in that order at the end — and
produces the artifact. -/
theorem C8_success_growth (key : Option String) (env : TurnEnv) (sp : String)
    (hist : List Message) (q r : String)
    (hk : truthyKey key = true)
    (hc : env.capture = Except.ok ())
    (ht : env.transcribe (get_speech_file_path "input.wav") = Except.ok q)
    (hcmp : env.complete [⟨Role.system, sp⟩, ⟨Role.user, q⟩] = Except.ok r)
    (hs : env.synth r = Except.ok ()) :
    (runTurn key env sp hist).hist = hist ++ [⟨Role.user, q⟩, ⟨Role.assistant, r⟩] ∧
    (runTurn key env sp hist).hist.length = hist.length + 2 ∧
    (runTurn key env sp hist).result = some (r, get_speech_file_path "speech.mp3") := by
  rw [runTurn_success key env sp hist q r hk hc ht hcmp hs]
  refine ⟨by simp, by simp, rfl⟩

/-- Claim C8 witness: instance of the theorem at a concrete successful
turn. -/
theorem C8_witness :
    (runTurn someKey envHi main_system_prompt []).hist
      = [] ++ [⟨Role.user, "Hi"⟩, ⟨Role.assistant, "Hello."⟩] ∧
    (runTurn someKey envHi main_system_prompt []).hist.length = ([] : List Message).length + 2 ∧
    (runTurn someKey envHi main_system_prompt []).result
      = some ("Hello.", get_speech_file_path "speech.mp3") :=
  C8_success_growth someKey envHi main_system_prompt [] "Hi" "Hello."
    (by decide) rfl rfl rfl rfl



/-- Claim C9: every successful turn writes the synthesized audio to the one
fixed path resolved from the script directory and `"speech.mp3"` (so each
turn's artifact overwrites the previous one), and every capture writes the
recording to the one fixed `"input.wav"` path in that directory. -/
theorem C9_fixed_artifact_paths (key : Option String) (env : TurnEnv)
    (sp : String) (hist : List Message) (r p : String)
    (h : (runTurn key env sp hist).result = some (r, p)) :
    p = get_speech_file_path "speech.mp3" ∧
    get_speech_file_path "speech.mp3" = script_dir ++ "/" ++ "speech.mp3" ∧
    Event.fileWrite (get_speech_file_path "speech.mp3") ∈ (runTurn key env sp hist).events ∧
    Event.fileWrite (get_speech_file_path "input.wav") ∈ (runTurn key env sp hist).events := by
  cases hc : env.capture with
  | error e => simp [runTurn, record_audio, hc] at h
  | ok u =>
    cases hk : truthyKey key with
    | false =>
      simp [runTurn, record_audio, speech_to_text, initialize_openai_client, hc, hk] at h
    | true =>
      cases ht : env.transcribe (get_speech_file_path "input.wav") with
      | error e =>
        simp [runTurn, record_audio, speech_to_text, initialize_openai_client, hc, hk, ht] at h
      | ok q =>
        cases hcmp : env.complete [⟨Role.system, sp⟩, ⟨Role.user, q⟩] with
        | error e =>
          simp [runTurn, record_audio, speech_to_text, ask_and_speak, chat_completion,
                initialize_openai_client, hc, hk, ht, hcmp] at h
        | ok r2 =>
          cases hs : env.synth r2 with
          | error e =>
            simp [runTurn, record_audio, speech_to_text, ask_and_speak, chat_completion,
                  text_to_speech, initialize_openai_client, hc, hk, ht, hcmp, hs] at h
          | ok u2 =>
            simp only [runTurn, record_audio, speech_to_text, ask_and_speak, chat_completion,
                  text_to_speech, initialize_openai_client, hc, hk, ht, hcmp, hs,
                  if_true] at h ⊢
            simp at h ⊢
            exact ⟨h.2.symm, rfl⟩

/-- Claim C9 witness: instance of the theorem at a concrete successful
turn. -/
theorem C9_witness :
    get_speech_file_path "speech.mp3" = get_speech_file_path "speech.mp3" ∧
    get_speech_file_path "speech.mp3" = script_dir ++ "/" ++ "speech.mp3" ∧
    Event.fileWrite (get_speech_file_path "speech.mp3")
      ∈ (runTurn someKey envHi main_system_prompt []).events ∧
    Event.fileWrite (get_speech_file_path "input.wav")
      ∈ (runTurn someKey envHi main_system_prompt []).events :=
  C9_fixed_artifact_paths someKey envHi main_system_prompt [] "Hello."
    (get_speech_file_path "speech.mp3") (by decide)

/-- Claim C10: the conversation history is append-only — a turn never
removes, reorders, or mutates an existing entry: its result extends the
prior history with zero, a single user, or a user-then-assistant tail, each
entry appended singly at the end; and over any whole scripted session the
initial history is left in place as a prefix of the final one. -/
theorem C10_append_only (key : Option String) (env : TurnEnv) (sp : String)
    (hist : List Message) (script : List (String × TurnEnv)) :
    (∃ t, (runTurn key env sp hist).hist = hist ++ t ∧
      (t = [] ∨ (∃ q, t = [⟨Role.user, q⟩]) ∨
       (∃ q r, t = [⟨Role.user, q⟩, ⟨Role.assistant, r⟩]))) ∧
    (∃ u, (mainLoop key sp script hist).hist = hist ++ u) := by
  constructor
  · rcases runTurn_hist_shape key env sp hist with h | ⟨q, h⟩ | ⟨q, r, h⟩
    · exact ⟨[], by simp [h], Or.inl rfl⟩
    · exact ⟨[⟨Role.user, q⟩], h, Or.inr (Or.inl ⟨q, rfl⟩)⟩
    · exact ⟨[⟨Role.user, q⟩, ⟨Role.assistant, r⟩], by simp [h], Or.inr (Or.inr ⟨q, r, rfl⟩)⟩
  · exact mainLoop_hist_extends key sp script hist

end VoiceAgent
